import Mathlib

/-!
Verification of the route-metrics evaluator of the delivery-network
repository (src/metricas.py).

The data model: a directed weighted graph is a finite map from ordered
node pairs to travel-time weights (embedded as an association list, the
networkx adjacency dictionary), and a route is an ordered list of
(origin, destination) pairs.  Weights and the tuning parameters (average
speed, fuel efficiency) are rationals.

The source signals failure with a `None` sentinel together with a printed
warning naming the offending edge; following the specification's error
design, the embedding makes that explicit as an `Except MetricError`
result, with `missingEdge` carrying the pair printed in the warning and
`invalidParameter` the non-positive tuning parameter.
-/

abbrev Node := String

/-- A directed weighted graph: association list from (origin, destination)
pairs to edge weights (minutes).  Lookup takes the first binding, matching
the uniqueness of dictionary keys in the source. -/
abbrev Grafo := List ((Node × Node) × ℚ)

/-- A route: an ordered list of (origin, destination) pairs. -/
abbrev Ruta := List (Node × Node)

/-- Dictionary lookup of a directed edge's weight: the binding of the first
matching (origin, destination) key, `none` when the pair is not an edge. -/
def lookupEdge : Grafo → Node → Node → Option ℚ
  | [], _, _ => none
  | ((o, d), w) :: resto, origen, destino =>
    if o = origen ∧ d = destino then some w else lookupEdge resto origen destino

/-- Membership test for a directed edge, `grafo.has_edge(origen, destino)`. -/
def hasEdge (grafo : Grafo) (origen destino : Node) : Bool :=
  (lookupEdge grafo origen destino).isSome

/-- The weight of an edge, `grafo[origen][destino]['weight']`; defaults to 0
when the edge is absent (the source only reads it after `has_edge`). -/
def edgeWeight (grafo : Grafo) (origen destino : Node) : ℚ :=
  (lookupEdge grafo origen destino).getD 0

/-- The two failure conditions of the evaluator. -/
inductive MetricError where
  | missingEdge (origen destino : Node)
  | invalidParameter (nombre : Node) (valor : ℚ)
deriving DecidableEq, Repr

instance : DecidableEq (Except MetricError ℚ) := fun
  | .ok a, .ok b => decidable_of_iff (a = b) (by simp)
  | .ok _, .error _ => .isFalse (by intro h; cases h)
  | .error _, .ok _ => .isFalse (by intro h; cases h)
  | .error a, .error b => decidable_of_iff (a = b) (by simp)

/-- Loop of `calcular_tiempo_total`: fold over the route pairs, accumulating
the weight when the edge exists and failing at the first pair that is not
an edge of the graph (the source prints the pair and returns `None`). -/
def tiempoLoop (grafo : Grafo) (tiempo_total : ℚ) : Ruta → Except MetricError ℚ
  | [] => .ok tiempo_total
  | (origen, destino) :: resto =>
    match lookupEdge grafo origen destino with
    | some w => tiempoLoop grafo (tiempo_total + w) resto
    | none => .error (.missingEdge origen destino)

/-- `calcular_tiempo_total(grafo, ruta)`: total travel time of a route,
summing the weights of its edges, failing on the first missing edge. -/
def calcular_tiempo_total (grafo : Grafo) (ruta : Ruta) : Except MetricError ℚ :=
  tiempoLoop grafo 0 ruta

/-- Default average speed (km per minute) of `estimar_distancia_total`. -/
def velocidad_promedio_default : ℚ := 0.5

/-- `estimar_distancia_total(grafo, ruta, velocidad_promedio_km_min)`:
distance = total time * average speed; a failure of
`calcular_tiempo_total` is propagated unchanged (source: `None` in,
`None` out). -/
def estimar_distancia_total (grafo : Grafo) (ruta : Ruta)
    (velocidad_promedio_km_min : ℚ) : Except MetricError ℚ :=
  match calcular_tiempo_total grafo ruta with
  | .ok tiempo_total => .ok (tiempo_total * velocidad_promedio_km_min)
  | .error e => .error e

/-- Default fuel efficiency (km per liter) of `estimar_consumo_combustible`. -/
def eficiencia_combustible_default : ℚ := 10

/-- `estimar_consumo_combustible(distancia_km, eficiencia_combustible_km_litro)`:
fuel = distance / efficiency.  The source guards
`distancia_km is not None and eficiencia_combustible_km_litro > 0`: an
undefined distance propagates the upstream failure, and a non-positive
efficiency is the `InvalidParameter` condition. -/
def estimar_consumo_combustible (distancia_km : Except MetricError ℚ)
    (eficiencia_combustible_km_litro : ℚ) : Except MetricError ℚ :=
  match distancia_km with
  | .error e => .error e
  | .ok d =>
    if 0 < eficiencia_combustible_km_litro then
      .ok (d / eficiencia_combustible_km_litro)
    else
      .error (.invalidParameter "eficiencia_combustible_km_litro"
        eficiencia_combustible_km_litro)

/-- Loop of `contar_entregas`: walk the route pairs keeping the set of
destinations already counted (embedded as a list) and the running count. -/
def entregasLoop (nodo_origen : Node) :
    Ruta → List Node → Nat → Nat
  | [], _, entregas => entregas
  | (_, destino) :: resto, puntos_visitados, entregas =>
    if destino ≠ nodo_origen ∧ destino ∉ puntos_visitados then
      entregasLoop nodo_origen resto (destino :: puntos_visitados) (entregas + 1)
    else
      entregasLoop nodo_origen resto puntos_visitados entregas

/-- `contar_entregas(ruta, nodo_origen)`: number of deliveries, counting each
destination once at its first visit and never the designated origin node. -/
def contar_entregas (ruta : Ruta) (nodo_origen : Node) : Nat :=
  entregasLoop nodo_origen ruta [] 0

/-- The simulated edge list of the sample graph (`aristas_simuladas`),
weights in minutes. -/
def aristas_simuladas : Grafo :=
  [ (("Centro Distribucion CEDI - Sur", "Punto Entrega 1 - Tequendama"), 20)
  , (("Centro Distribucion CEDI - Sur", "Punto Entrega 4 - Ciudad Jardin"), 10)
  , (("Punto Entrega 1 - Tequendama", "Centro Distribucion CEDI - Sur"), 25)
  , (("Punto Entrega 1 - Tequendama", "Punto Entrega 2 - Granada"), 15)
  , (("Punto Entrega 1 - Tequendama", "Punto Entrega 3 - San Antonio"), 5)
  , (("Punto Entrega 2 - Granada", "Punto Entrega 1 - Tequendama"), 18)
  , (("Punto Entrega 2 - Granada", "Punto Entrega 5 - Menga"), 30)
  , (("Punto Entrega 3 - San Antonio", "Punto Entrega 1 - Tequendama"), 7)
  , (("Punto Entrega 3 - San Antonio", "Punto Entrega 4 - Ciudad Jardin"), 20)
  , (("Punto Entrega 4 - Ciudad Jardin", "Centro Distribucion CEDI - Sur"), 12)
  , (("Punto Entrega 4 - Ciudad Jardin", "Punto Entrega 3 - San Antonio"), 22)
  , (("Punto Entrega 5 - Menga", "Centro Distribucion CEDI - Sur"), 40) ]

/-- The sample route (`ruta_ejemplo`): CEDI → P4 → P3 → P1 → CEDI. -/
def ruta_ejemplo : Ruta :=
  [ ("Centro Distribucion CEDI - Sur", "Punto Entrega 4 - Ciudad Jardin")
  , ("Punto Entrega 4 - Ciudad Jardin", "Punto Entrega 3 - San Antonio")
  , ("Punto Entrega 3 - San Antonio", "Punto Entrega 1 - Tequendama")
  , ("Punto Entrega 1 - Tequendama", "Centro Distribucion CEDI - Sur") ]

/-!
### Helper lemmas about the evaluator
-/

/-- When every pair of the route is an edge, the time loop succeeds with the
accumulator plus the sum of the looked-up edge weights. -/
theorem tiempoLoop_ok (g : Grafo) (r : Ruta) (a : ℚ)
    (h : ∀ p ∈ r, hasEdge g p.1 p.2 = true) :
    tiempoLoop g a r = .ok (a + (r.map fun p => edgeWeight g p.1 p.2).sum) := by
  induction r generalizing a with
  | nil => simp [tiempoLoop]
  | cons p resto ih =>
    obtain ⟨origen, destino⟩ := p
    have hp : hasEdge g origen destino = true :=
      h (origen, destino) (List.mem_cons_self _ _)
    rw [hasEdge, Option.isSome_iff_exists] at hp
    obtain ⟨w, hw⟩ := hp
    have hresto : ∀ q ∈ resto, hasEdge g q.1 q.2 = true := fun q hq =>
      h q (List.mem_cons_of_mem _ hq)
    simp only [tiempoLoop, hw, ih _ hresto, List.map_cons, List.sum_cons, edgeWeight]
    simp [add_assoc]

/-- When the route has a pair that is not an edge, the time loop fails with
the first such pair (in route order), whatever the accumulator. -/
theorem tiempoLoop_error (g : Grafo) (r : Ruta) (p : Node × Node) (a : ℚ)
    (h : r.find? (fun q => !(hasEdge g q.1 q.2)) = some p) :
    tiempoLoop g a r = .error (.missingEdge p.1 p.2) := by
  induction r generalizing a with
  | nil => simp at h
  | cons q resto ih =>
    obtain ⟨origen, destino⟩ := q
    rw [List.find?_cons] at h
    by_cases hq : hasEdge g origen destino = true
    · have hw := hq
      rw [hasEdge, Option.isSome_iff_exists] at hw
      obtain ⟨w, hw⟩ := hw
      simp only [hq, Bool.not_true] at h
      simp only [tiempoLoop, hw]
      exact ih _ h
    · have hb : hasEdge g origen destino = false := by
        simpa using hq
      simp only [hb, Bool.not_false] at h
      have hnone : lookupEdge g origen destino = none := by
        rw [hasEdge] at hb
        exact Option.not_isSome_iff_eq_none.mp (by simp [hb])
      obtain rfl : (origen, destino) = p := by simpa using h
      simp [tiempoLoop, hnone]

/-- The delivery-count loop adds to the running count the number of distinct
destinations of the remaining route that are neither the origin node nor
already visited. -/
theorem entregasLoop_eq_card (nodo_origen : Node) (r : Ruta)
    (vis : List Node) (n : Nat) :
    entregasLoop nodo_origen r vis n =
      n + (((r.map Prod.snd).toFinset \ vis.toFinset).erase nodo_origen).card := by
  induction r generalizing vis n with
  | nil => simp [entregasLoop]
  | cons p resto ih =>
    obtain ⟨o, d⟩ := p
    by_cases hd : d ≠ nodo_origen ∧ d ∉ vis
    · obtain ⟨hdo, hdv⟩ := hd
      have hdV : d ∉ vis.toFinset := by simpa using hdv
      simp only [entregasLoop, if_pos (And.intro hdo hdv), ih]
      rw [List.toFinset_cons, Finset.sdiff_insert, Finset.erase_right_comm,
        List.map_cons, List.toFinset_cons, Finset.insert_sdiff_of_not_mem _ hdV,
        Finset.erase_insert_of_ne hdo]
      by_cases hY : d ∈ (((resto.map Prod.snd).toFinset \ vis.toFinset).erase nodo_origen)
      · rw [Finset.insert_eq_self.mpr hY]
        have := Finset.card_erase_add_one hY
        omega
      · rw [Finset.card_insert_of_not_mem hY, Finset.erase_eq_self.mpr hY]
        omega
    · simp only [entregasLoop, if_neg hd, ih]
      have hd2 : d = nodo_origen ∨ d ∈ vis := by
        by_contra hcon
        push_neg at hcon
        exact hd ⟨hcon.1, hcon.2⟩
      have hset : ((((o, d) :: resto).map Prod.snd).toFinset \ vis.toFinset).erase nodo_origen
          = (((resto.map Prod.snd).toFinset \ vis.toFinset)).erase nodo_origen := by
        ext x
        simp only [List.map_cons, List.toFinset_cons, Finset.mem_erase, Finset.mem_sdiff,
          Finset.mem_insert, List.mem_toFinset]
        rcases hd2 with h1 | h2
        · subst h1
          constructor
          · rintro ⟨hx, hx2 | hx2, hx3⟩
            · exact absurd hx2 hx
            · exact ⟨hx, hx2, hx3⟩
          · rintro ⟨hx, hx2, hx3⟩
            exact ⟨hx, Or.inr hx2, hx3⟩
        · constructor
          · rintro ⟨hx, hx2 | hx2, hx3⟩
            · exact absurd (hx2 ▸ h2) hx3
            · exact ⟨hx, hx2, hx3⟩
          · rintro ⟨hx, hx2, hx3⟩
            exact ⟨hx, Or.inr hx2, hx3⟩
      rw [hset]

/-- `contar_entregas` counts exactly the distinct destination nodes of the
route other than the origin node. -/
theorem contar_entregas_eq_card (r : Ruta) (nodo_origen : Node) :
    contar_entregas r nodo_origen =
      ((r.map Prod.snd).toFinset.erase nodo_origen).card := by
  rw [contar_entregas, entregasLoop_eq_card]
  simp

/-!
### The claims
-/

/-- Claim C1: for every graph and every route each of whose
(origin, destination) pairs is an edge of the graph,
`calcular_tiempo_total` succeeds and returns exactly the sum of the weights
of those edges; and the total is independent of iteration order: any
permutation of the route yields the same result. -/
theorem C1_total_time_is_weight_sum (g : Grafo) (r r' : Ruta)
    (h : ∀ p ∈ r, hasEdge g p.1 p.2 = true) (hperm : r.Perm r') :
    calcular_tiempo_total g r =
      .ok ((r.map fun p => edgeWeight g p.1 p.2).sum) ∧
    calcular_tiempo_total g r' = calcular_tiempo_total g r := by
  have h' : ∀ p ∈ r', hasEdge g p.1 p.2 = true := fun p hp =>
    h p (hperm.mem_iff.mpr hp)
  have h1 : calcular_tiempo_total g r =
      .ok ((r.map fun p => edgeWeight g p.1 p.2).sum) := by
    rw [calcular_tiempo_total, tiempoLoop_ok g r 0 h, zero_add]
  have h2 : calcular_tiempo_total g r' =
      .ok ((r'.map fun p => edgeWeight g p.1 p.2).sum) := by
    rw [calcular_tiempo_total, tiempoLoop_ok g r' 0 h', zero_add]
  have hsum : (r'.map fun p => edgeWeight g p.1 p.2).sum =
      (r.map fun p => edgeWeight g p.1 p.2).sum :=
    ((hperm.map fun p => edgeWeight g p.1 p.2).sum_eq).symm
  rw [h1, h2, hsum]
  exact ⟨rfl, rfl⟩

/-- Witness for C1: the sample route in the sample graph, against its own
reversal as the permuted iteration order. -/
theorem C1_total_time_is_weight_sum_witness :
    calcular_tiempo_total aristas_simuladas ruta_ejemplo =
      .ok ((ruta_ejemplo.map fun p => edgeWeight aristas_simuladas p.1 p.2).sum) ∧
    calcular_tiempo_total aristas_simuladas ruta_ejemplo.reverse =
      calcular_tiempo_total aristas_simuladas ruta_ejemplo :=
  C1_total_time_is_weight_sum aristas_simuladas ruta_ejemplo ruta_ejemplo.reverse
    (by decide) (ruta_ejemplo.reverse_perm).symm

/-- Claim C2: when some pair of the route is not an edge of the graph,
`calcular_tiempo_total` fails with `missingEdge` identifying the first
offending pair in route order (the pair `List.find?` locates), and does not
return any number. -/
theorem C2_total_time_missing_edge (g : Grafo) (r : Ruta)
    (h : ∃ p ∈ r, hasEdge g p.1 p.2 = false) :
    ∃ p, r.find? (fun q => !(hasEdge g q.1 q.2)) = some p ∧
      calcular_tiempo_total g r = .error (.missingEdge p.1 p.2) ∧
      ∀ x : ℚ, calcular_tiempo_total g r ≠ .ok x := by
  have hsome : (r.find? (fun q => !(hasEdge g q.1 q.2))).isSome := by
    rw [List.find?_isSome]
    obtain ⟨p, hp, hfalse⟩ := h
    exact ⟨p, hp, by simp [hfalse]⟩
  obtain ⟨p, hp⟩ := Option.isSome_iff_exists.mp hsome
  have herr : calcular_tiempo_total g r = .error (.missingEdge p.1 p.2) := by
    rw [calcular_tiempo_total]
    exact tiempoLoop_error g r p 0 hp
  refine ⟨p, hp, herr, fun x hx => ?_⟩
  rw [herr] at hx
  exact Except.noConfusion hx

/-- Witness for C2: the one-pair route P2 Granada → P4 Ciudad Jardin, which
is not an edge of the sample graph. -/
theorem C2_total_time_missing_edge_witness :
    ∃ p, ([(("Punto Entrega 2 - Granada" : Node), ("Punto Entrega 4 - Ciudad Jardin" : Node))] : Ruta).find?
        (fun q => !(hasEdge aristas_simuladas q.1 q.2)) = some p ∧
      calcular_tiempo_total aristas_simuladas
        [("Punto Entrega 2 - Granada", "Punto Entrega 4 - Ciudad Jardin")] =
        .error (.missingEdge p.1 p.2) ∧
      ∀ x : ℚ, calcular_tiempo_total aristas_simuladas
        [("Punto Entrega 2 - Granada", "Punto Entrega 4 - Ciudad Jardin")] ≠ .ok x :=
  C2_total_time_missing_edge aristas_simuladas
    [("Punto Entrega 2 - Granada", "Punto Entrega 4 - Ciudad Jardin")] (by decide)

/-- Claim C3: `estimar_consumo_combustible` fails with `InvalidParameter`
for every defined distance when the fuel efficiency is non-positive;
for positive efficiency and a defined distance it returns
distance / efficiency; an undefined distance (a propagated upstream
failure) also yields an error; the default efficiency is 10. -/
theorem C3_fuel_estimate (d ef : ℚ) (e : MetricError) :
    (ef ≤ 0 → estimar_consumo_combustible (.ok d) ef =
      .error (.invalidParameter "eficiencia_combustible_km_litro" ef)) ∧
    (0 < ef → estimar_consumo_combustible (.ok d) ef = .ok (d / ef)) ∧
    estimar_consumo_combustible (.error e) ef = .error e ∧
    eficiencia_combustible_default = 10 := by
  refine ⟨fun hef => ?_, fun hef => ?_, rfl, rfl⟩
  · simp [estimar_consumo_combustible, not_lt.mpr hef]
  · simp [estimar_consumo_combustible, hef]

/-- Witness for C3: distance 32 km with efficiency -1 (invalid) and with the
default efficiency 10 (valid). -/
theorem C3_fuel_estimate_witness :
    estimar_consumo_combustible (.ok 32) (-1) =
      .error (.invalidParameter "eficiencia_combustible_km_litro" (-1)) ∧
    estimar_consumo_combustible (.ok 32) 10 = .ok (32 / 10) :=
  ⟨(C3_fuel_estimate 32 (-1) (.missingEdge "" "")).1 (by norm_num),
   (C3_fuel_estimate 32 10 (.missingEdge "" "")).2.1 (by norm_num)⟩

/-- Claim C4: `contar_entregas` equals the number of distinct destination
nodes of the route's pairs, excluding the designated origin node (each
distinct destination counted once, at its first visit); it is a total
function with no error conditions, and on the empty route it returns 0. -/
theorem C4_delivery_count_distinct (r : Ruta) (nodo_origen : Node) :
    contar_entregas r nodo_origen =
      ((r.map Prod.snd).toFinset.erase nodo_origen).card ∧
    contar_entregas [] nodo_origen = 0 :=
  ⟨contar_entregas_eq_card r nodo_origen, rfl⟩

/-- Claim C5: `estimar_distancia_total` returns the total time multiplied by
the average speed whenever `calcular_tiempo_total` succeeds, propagates a
failure of `calcular_tiempo_total` unchanged, and the default average speed
is 0.5 km per minute. -/
theorem C5_distance_from_time (g : Grafo) (r : Ruta) (v : ℚ) :
    (∀ t : ℚ, calcular_tiempo_total g r = .ok t →
      estimar_distancia_total g r v = .ok (t * v)) ∧
    (∀ e : MetricError, calcular_tiempo_total g r = .error e →
      estimar_distancia_total g r v = .error e) ∧
    velocidad_promedio_default = 1 / 2 := by
  refine ⟨fun t ht => ?_, fun e he => ?_, by norm_num [velocidad_promedio_default]⟩
  · rw [estimar_distancia_total, ht]
  · rw [estimar_distancia_total, he]

/-- Witness for C5: the sample route, whose total time is 64 minutes. -/
theorem C5_distance_from_time_witness :
    calcular_tiempo_total aristas_simuladas ruta_ejemplo = .ok 64 ∧
    estimar_distancia_total aristas_simuladas ruta_ejemplo velocidad_promedio_default =
      .ok (64 * velocidad_promedio_default) := by
  have h64 : calcular_tiempo_total aristas_simuladas ruta_ejemplo = .ok 64 := by
    simp [calcular_tiempo_total, tiempoLoop, lookupEdge, aristas_simuladas, ruta_ejemplo]
    norm_num
  exact ⟨h64, (C5_distance_from_time aristas_simuladas ruta_ejemplo
    velocidad_promedio_default).1 64 h64⟩

/-- Claim C6: for the sample graph and the sample route
CEDI → P4 → P3 → P1 → CEDI with origin CEDI, the evaluator returns a total
time of 64 minutes, a distance of 32 km at the default speed 0.5, a fuel
consumption of 16/5 = 3.2 liters at the default efficiency 10, and a
delivery count of 3. -/
theorem C6_sample_route_metrics :
    calcular_tiempo_total aristas_simuladas ruta_ejemplo = .ok 64 ∧
    estimar_distancia_total aristas_simuladas ruta_ejemplo
      velocidad_promedio_default = .ok 32 ∧
    estimar_consumo_combustible
      (estimar_distancia_total aristas_simuladas ruta_ejemplo
        velocidad_promedio_default)
      eficiencia_combustible_default = .ok (16 / 5) ∧
    contar_entregas ruta_ejemplo "Centro Distribucion CEDI - Sur" = 3 := by
  have h1 : calcular_tiempo_total aristas_simuladas ruta_ejemplo = .ok 64 := by
    simp [calcular_tiempo_total, tiempoLoop, lookupEdge, aristas_simuladas, ruta_ejemplo]
    norm_num
  have h2 : estimar_distancia_total aristas_simuladas ruta_ejemplo
      velocidad_promedio_default = .ok 32 := by
    rw [estimar_distancia_total, h1]
    norm_num [velocidad_promedio_default]
  refine ⟨h1, h2, ?_, by decide⟩
  rw [h2]
  norm_num [estimar_consumo_combustible, eficiencia_combustible_default]

/-- Counterexample to C7 as stated: a route that contains the pair
(P2 Granada, P4 Ciudad Jardin) but reaches a different missing edge first
fails with a `missingEdge` error naming that other pair, not
(P2 Granada, P4 Ciudad Jardin). -/
theorem C7_counterexample :
    (("Punto Entrega 2 - Granada", "Punto Entrega 4 - Ciudad Jardin") ∈
      ([ ("Punto Entrega 4 - Ciudad Jardin", "Punto Entrega 5 - Menga")
       , ("Punto Entrega 2 - Granada", "Punto Entrega 4 - Ciudad Jardin") ] : Ruta)) ∧
    calcular_tiempo_total aristas_simuladas
      [ ("Punto Entrega 4 - Ciudad Jardin", "Punto Entrega 5 - Menga")
      , ("Punto Entrega 2 - Granada", "Punto Entrega 4 - Ciudad Jardin") ] =
      .error (.missingEdge "Punto Entrega 4 - Ciudad Jardin" "Punto Entrega 5 - Menga") ∧
    calcular_tiempo_total aristas_simuladas
      [ ("Punto Entrega 4 - Ciudad Jardin", "Punto Entrega 5 - Menga")
      , ("Punto Entrega 2 - Granada", "Punto Entrega 4 - Ciudad Jardin") ] ≠
      .error (.missingEdge "Punto Entrega 2 - Granada" "Punto Entrega 4 - Ciudad Jardin") := by
  refine ⟨by decide, by decide, by decide⟩

/-- Claim C7 (amended): for the sample graph, any route containing the pair
(P2 Granada, P4 Ciudad Jardin) makes `calcular_tiempo_total` fail with a
`missingEdge` error naming a pair of the route that is not an edge; the
error names (P2 Granada, P4 Ciudad Jardin) itself whenever every other pair
of the route is an edge; and neither the distance metric nor the fuel metric
returns a numeric result for such a route. -/
theorem C7_missing_edge_route (r : Ruta) (v ef : ℚ)
    (hmem : ("Punto Entrega 2 - Granada", "Punto Entrega 4 - Ciudad Jardin") ∈ r) :
    (∃ o d, calcular_tiempo_total aristas_simuladas r = .error (.missingEdge o d) ∧
      hasEdge aristas_simuladas o d = false ∧ (o, d) ∈ r) ∧
    ((∀ q ∈ r, q ≠ ("Punto Entrega 2 - Granada", "Punto Entrega 4 - Ciudad Jardin") →
        hasEdge aristas_simuladas q.1 q.2 = true) →
      calcular_tiempo_total aristas_simuladas r =
        .error (.missingEdge "Punto Entrega 2 - Granada" "Punto Entrega 4 - Ciudad Jardin")) ∧
    (∀ x : ℚ, estimar_distancia_total aristas_simuladas r v ≠ .ok x) ∧
    (∀ x : ℚ, estimar_consumo_combustible
        (estimar_distancia_total aristas_simuladas r v) ef ≠ .ok x) := by
  have hP2 : hasEdge aristas_simuladas
      "Punto Entrega 2 - Granada" "Punto Entrega 4 - Ciudad Jardin" = false := by decide
  have hsome : (r.find? (fun q => !(hasEdge aristas_simuladas q.1 q.2))).isSome := by
    rw [List.find?_isSome]
    exact ⟨_, hmem, by simp [hP2]⟩
  obtain ⟨p, hp⟩ := Option.isSome_iff_exists.mp hsome
  have herr : calcular_tiempo_total aristas_simuladas r =
      .error (.missingEdge p.1 p.2) := by
    rw [calcular_tiempo_total]
    exact tiempoLoop_error _ r p 0 hp
  have hpfalse : hasEdge aristas_simuladas p.1 p.2 = false := by
    have := List.find?_some hp
    simpa using this
  have hpmem : p ∈ r := List.mem_of_find?_eq_some hp
  have hdisterr : estimar_distancia_total aristas_simuladas r v =
      .error (.missingEdge p.1 p.2) := by
    rw [estimar_distancia_total, herr]
  have hdist : ∀ x : ℚ, estimar_distancia_total aristas_simuladas r v ≠ .ok x := by
    intro x hx
    rw [hdisterr] at hx
    exact Except.noConfusion hx
  refine ⟨⟨p.1, p.2, herr, hpfalse, by simpa using hpmem⟩, ?_, hdist, ?_⟩
  · intro hall
    have hpeq : p = ("Punto Entrega 2 - Granada", "Punto Entrega 4 - Ciudad Jardin") := by
      by_contra hne
      have := hall p hpmem hne
      rw [this] at hpfalse
      simp at hpfalse
    rw [herr, hpeq]
  · intro x hx
    rw [hdisterr] at hx
    simp [estimar_consumo_combustible] at hx

/-- Witness for C7 (amended): the one-pair route consisting exactly of
(P2 Granada, P4 Ciudad Jardin). -/
theorem C7_missing_edge_route_witness :
    calcular_tiempo_total aristas_simuladas
      [("Punto Entrega 2 - Granada", "Punto Entrega 4 - Ciudad Jardin")] =
      .error (.missingEdge "Punto Entrega 2 - Granada" "Punto Entrega 4 - Ciudad Jardin") ∧
    estimar_distancia_total aristas_simuladas
      [("Punto Entrega 2 - Granada", "Punto Entrega 4 - Ciudad Jardin")]
      velocidad_promedio_default ≠ .ok 16 := by
  have h := C7_missing_edge_route
    [("Punto Entrega 2 - Granada", "Punto Entrega 4 - Ciudad Jardin")]
    velocidad_promedio_default eficiencia_combustible_default (by decide)
  exact ⟨h.2.1 (by decide), h.2.2.1 16⟩

/-- Claim C8: scaling the average speed by a factor k > 0 scales the
estimated distance by k, for every graph and every route valid in it. -/
theorem C8_distance_linear_in_speed (g : Grafo) (r : Ruta) (v k : ℚ)
    (_hk : 0 < k) (h : ∀ p ∈ r, hasEdge g p.1 p.2 = true) :
    ∃ dist : ℚ, estimar_distancia_total g r v = .ok dist ∧
      estimar_distancia_total g r (k * v) = .ok (k * dist) := by
  have ht : calcular_tiempo_total g r =
      .ok ((r.map fun p => edgeWeight g p.1 p.2).sum) := by
    rw [calcular_tiempo_total, tiempoLoop_ok g r 0 h, zero_add]
  refine ⟨(r.map fun p => edgeWeight g p.1 p.2).sum * v, ?_, ?_⟩
  · rw [estimar_distancia_total, ht]
  · rw [estimar_distancia_total, ht]
    exact congrArg Except.ok (by ring)

/-- Witness for C8: the sample route with speed 1/2 and factor 2. -/
theorem C8_distance_linear_in_speed_witness :
    ∃ dist : ℚ, estimar_distancia_total aristas_simuladas ruta_ejemplo (1 / 2) =
      .ok dist ∧
    estimar_distancia_total aristas_simuladas ruta_ejemplo (2 * (1 / 2)) =
      .ok (2 * dist) :=
  C8_distance_linear_in_speed aristas_simuladas ruta_ejemplo (1 / 2) 2
    (by norm_num) (by decide)

/-- Claim C9: for every graph, the empty route is not treated as a
missing-edge error: `calcular_tiempo_total` returns 0 on it, and
consequently `estimar_distancia_total` returns 0 for every average speed. -/
theorem C9_empty_route (g : Grafo) (v : ℚ) :
    calcular_tiempo_total g [] = .ok 0 ∧
    estimar_distancia_total g [] v = .ok 0 := by
  constructor
  · rfl
  · simp [estimar_distancia_total, calcular_tiempo_total, tiempoLoop]

/-- Claim C10: `contar_entregas` depends only on the destination components
of the route: two routes whose destination components agree position by
position (origins arbitrary) yield the same count for every origin node. -/
theorem C10_count_depends_only_on_destinations (nodo_origen : Node)
    (r1 r2 : Ruta) (h : r1.map Prod.snd = r2.map Prod.snd) :
    contar_entregas r1 nodo_origen = contar_entregas r2 nodo_origen := by
  rw [contar_entregas_eq_card, contar_entregas_eq_card, h]

/-- Witness for C10: the sample route against a route with the same
destinations but all origins replaced by P5 Menga. -/
theorem C10_count_depends_only_on_destinations_witness :
    contar_entregas ruta_ejemplo "Centro Distribucion CEDI - Sur" =
      contar_entregas
        [ ("Punto Entrega 5 - Menga", "Punto Entrega 4 - Ciudad Jardin")
        , ("Punto Entrega 5 - Menga", "Punto Entrega 3 - San Antonio")
        , ("Punto Entrega 5 - Menga", "Punto Entrega 1 - Tequendama")
        , ("Punto Entrega 5 - Menga", "Centro Distribucion CEDI - Sur") ]
        "Centro Distribucion CEDI - Sur" :=
  C10_count_depends_only_on_destinations "Centro Distribucion CEDI - Sur"
    ruta_ejemplo _ rfl
